import Mathlib

/-!
Verification of the todo application's data model and request handlers.

The development is a shallow embedding of the TypeScript sources:

* `src/models/User.ts` and `src/models/Todo.ts` — the mongoose schemas,
  embedded as validation functions over plain records;
* the route handlers bundled with `src/app/page.tsx` — the shipped,
  unauthenticated `/api/todos` handlers;
* the authentication layer of `src/TODO_APP_GUIDE.md` (Steps 3, 4 and 8) —
  `lib/auth.ts`, the signup/login/me routes and the owner-filtered todo
  routes, which are the only code in the repository implementing token
  authentication.

External libraries (`bcryptjs`, `jsonwebtoken`) are not part of the
repository; their primitives are modelled from the specification and marked
as such in their doc comments.  Document-store operations (`find`, `create`,
`findByIdAndUpdate`, ...) are modelled as list operations; `_id` values are
opaque strings or numbers assigned at insertion.
-/

namespace TodoApp

/-- Whitespace trimming as performed by the schemas' `trim: true` option:
drop whitespace from both ends.  Implemented over the character list so that
concrete instances evaluate inside the kernel. -/
def strTrim (s : String) : String :=
  ⟨((s.data.dropWhile Char.isWhitespace).reverse.dropWhile Char.isWhitespace).reverse⟩

/-- Lowercasing as performed by `email.toLowerCase()` and the schema's
`lowercase: true` option, over the character list for kernel evaluation. -/
def strLower (s : String) : String :=
  ⟨s.data.map Char.toLower⟩

/-- Modelled from the spec: the `bcryptjs` salted hash primitive (spec §4.1
Password Hasher).  The digest embeds its salt so that no separate salt
storage is needed.  The salt is rendered in unary so that recovering it from
the digest needs no numeric parsing; the cost-factor marker `10` mirrors
`bcrypt.genSalt(10)`. -/
def bcryptHash (salt : Nat) (plain : String) : String :=
  "$2b$10$" ++ String.mk (List.replicate salt 's') ++ "$" ++ plain

/-- Salt embedded in a digest produced by `bcryptHash`: the run of `s`
characters following the 7-character `$2b$10$` prefix. -/
def saltOf (h : String) : Nat :=
  ((h.data.drop 7).takeWhile (fun c => c == 's')).length

/-- Modelled from the spec: `bcrypt.compare` recomputes the digest with the
salt embedded in the stored hash and compares. -/
def bcryptCompare (plain h : String) : Bool :=
  h == bcryptHash (saltOf h) plain

/-- User record as persisted by `UserSchema` (src/models/User.ts): after the
`pre('save')` hook, `password` holds the bcrypt digest, never the plaintext.
`id` models the store-assigned ObjectId. -/
structure UserRecord where
  id : String
  fullName : String
  email : String
  password : String
  createdAt : Nat
deriving Repr, DecidableEq

/-- Email normalization: the schema option `lowercase: true`, and the routes'
explicit `email.toLowerCase()`. -/
def normalizeEmail (e : String) : String := strLower e

/-- The email shape check of `UserSchema.email.match`, the regex
`^[^\s@]+@[^\s@]+\.[^\s@]+$`: no whitespace anywhere, exactly one `@` with a
nonempty local part, and the domain part contains a dot that is neither its
first nor its last character (regex matching is existential in the split, so
this is an exact characterization). -/
def emailShapeValid (e : String) : Bool :=
  let cs := e.data
  (cs.all fun c => !c.isWhitespace) &&
  cs.count '@' == 1 &&
  !(cs.takeWhile (fun c => c != '@')).isEmpty &&
  ((((cs.dropWhile (fun c => c != '@')).drop 1).drop 1).dropLast.contains '.')

/-- Result of `User.create` (mongoose): a validation failure, a duplicate-key
failure from the store's unique email index, or the saved record. -/
inductive CreateUserResult
  | ok (store : List UserRecord) (u : UserRecord)
  | validationError (msg : String)
  | duplicateKeyError
deriving Repr, DecidableEq

/-- Whether a record with the given (raw) email already exists; the lookup key
is the normalized email, as in `User.findOne({ email: email.toLowerCase() })`
and the unique index over the lowercased `email` path. -/
def emailTaken (store : List UserRecord) (email : String) : Bool :=
  (store.find? (fun u => u.email == normalizeEmail email)).isSome

/-- Embedding of `User.create` (src/models/User.ts): schema validation
(`fullName` trimmed to 3..50 chars, email lowercased and shape-checked,
password at least 6 chars — validation runs before the hashing hook), then
the unique-index check at insertion, then the `pre('save')` hook replacing
the password with its bcrypt digest.  `salt` stands for the fresh random
salt drawn by `bcrypt.genSalt(10)`; `now` for the store-managed timestamp.
The first failing validator's message is reported. -/
def userCreate (store : List UserRecord) (fullName email password : String)
    (salt : Nat) (now : Nat) : CreateUserResult :=
  let fn := strTrim fullName
  if fn.length < 3 then .validationError "Name must be atleast 3 characters"
  else if fn.length > 50 then .validationError "Name cannot exceed 50 characters"
  else if !emailShapeValid (normalizeEmail email) then
    .validationError "Please provide a valid email address"
  else if password.length < 6 then .validationError "Password must be atleast 6 characters"
  else if emailTaken store email then .duplicateKeyError
  else
    let u : UserRecord :=
      ⟨"u" ++ toString store.length, fn, normalizeEmail email, bcryptHash salt password, now⟩
    .ok (store ++ [u]) u

/-- Embedding of `UserSchema.methods.comparePassword`. -/
def comparePassword (u : UserRecord) (candidate : String) : Bool :=
  bcryptCompare candidate u.password

/-- JWT claim set as in `lib/auth.ts` (guide Step 3): `{userId, email, iat, exp}`. -/
structure TokenPayload where
  userId : String
  email : String
  iat : Nat
  exp : Nat
deriving Repr, DecidableEq

/-- Modelled from the spec: a signed, self-contained token (spec §3 Token,
§4.3 Token Service).  The signature of `jwt.sign` is modelled as the pair of
the payload and the signing secret, which is exactly the information a MAC
binds; `jwt.verify` recomputes it and compares. -/
structure Token where
  payload : TokenPayload
  sig : TokenPayload × String
deriving Repr, DecidableEq

/-- Seven days in seconds: the `expiresIn: '7d'` window of `generateToken`. -/
def sevenDays : Nat := 7 * 24 * 60 * 60

/-- Embedding of `generateToken` (guide Step 3.1): sign `{userId, email}`
with the secret; `jsonwebtoken` stamps `iat` with the current time and `exp`
with `iat` plus the window. -/
def generateToken (secret : String) (userId email : String) (now : Nat) : Token :=
  { payload := ⟨userId, email, now, now + sevenDays⟩
    sig := (⟨userId, email, now, now + sevenDays⟩, secret) }

/-- Embedding of `verifyToken` (guide Step 3.1): `jwt.verify` checks the
signature against the secret and that the token is not expired (a token is
expired once `exp ≤ now`); on any failure the wrapper returns `null`. -/
def jwtVerify (secret : String) (t : Token) (now : Nat) : Option TokenPayload :=
  if t.sig = (t.payload, secret) ∧ now < t.payload.exp then some t.payload else none

/-- One whitespace-separated word of an `Authorization` header: either plain
text or a well-formed JWT credential. -/
inductive HeaderWord
  | plain (s : String)
  | tok (t : Token)
deriving Repr, DecidableEq

/-- Embedding of `extractTokenFromHeader` (guide Step 3.1): a missing header
or anything other than exactly `Bearer <credential>` yields `null`. -/
def extractTokenFromHeader (authHeader : Option (List HeaderWord)) : Option HeaderWord :=
  match authHeader with
  | some [HeaderWord.plain "Bearer", w] => some w
  | _ => none

/-- Embedding of `getUserIdFromHeader` (guide Step 3.1): extract the
credential, verify it, and return `payload?.userId || null` — a plain-text
credential fails `jwt.verify`, and an empty `userId` string is falsy in
JavaScript, hence also `null`. -/
def getUserIdFromHeader (secret : String) (authHeader : Option (List HeaderWord))
    (now : Nat) : Option String :=
  match extractTokenFromHeader authHeader with
  | none => none
  | some (HeaderWord.plain _) => none
  | some (HeaderWord.tok t) =>
    match jwtVerify secret t now with
    | none => none
    | some p => if p.userId == "" then none else some p.userId

/-- The user object returned to clients: `{_id, fullName, email}` — built
field by field in the routes, so it can never carry the password digest. -/
structure PublicUser where
  id : String
  fullName : String
  email : String
deriving Repr, DecidableEq

/-- The `AuthResponse` shape of the auth routes, together with the HTTP
status the route attaches. -/
structure AuthResponse where
  status : Nat
  success : Bool
  message : Option String
  token : Option Token
  user : Option PublicUser
  error : Option String
deriving Repr, DecidableEq

/-- A failure envelope `{success: false, error}` with the given status. -/
def errResp (status : Nat) (msg : String) : AuthResponse :=
  ⟨status, false, none, none, none, some msg⟩

/-- Request body of `POST /api/auth/signup`; absent fields are `none`. -/
structure SignupInput where
  fullName : Option String
  email : Option String
  password : Option String
  confirmPassword : Option String
deriving Repr

/-- JavaScript falsiness of an optional string field: absent or empty. -/
def falsy (o : Option String) : Bool := o.isNone || o == some ""

/-- The success payload of signup: status 201, message, token for the new
user, and the user without the password digest. -/
def okSignup (secret : String) (u : UserRecord) (now : Nat) : AuthResponse :=
  ⟨201, true, some "User registered successfully",
   some (generateToken secret u.id u.email now),
   some ⟨u.id, u.fullName, u.email⟩, none⟩

/-- Embedding of `POST /api/auth/signup` (guide Step 4.1): field presence,
password length, password confirmation, duplicate-email check via `findOne`,
then `User.create` — whose errors are caught and surfaced with status 500
and the error's message (a schema validation failure or, if another insert
won the race, the store's duplicate-key error). -/
def signupPOST (store : List UserRecord) (secret : String) (b : SignupInput)
    (salt : Nat) (now : Nat) : List UserRecord × AuthResponse :=
  if falsy b.fullName || falsy b.email || falsy b.password || falsy b.confirmPassword then
    (store, errResp 400 "All fields are required")
  else
    let fullName := b.fullName.getD ""
    let email := b.email.getD ""
    let password := b.password.getD ""
    let confirmPassword := b.confirmPassword.getD ""
    if password.length < 6 then
      (store, errResp 400 "Password must be at least 6 characters")
    else if password != confirmPassword then
      (store, errResp 400 "Passwords do not match")
    else if emailTaken store email then
      (store, errResp 400 "Email already registered")
    else
      match userCreate store fullName email password salt now with
      | .ok store2 u => (store2, okSignup secret u now)
      | .validationError msg => (store, errResp 500 msg)
      | .duplicateKeyError => (store, errResp 500 "E11000 duplicate key error")

/-- Request body of `POST /api/auth/login`. -/
structure LoginInput where
  email : Option String
  password : Option String
deriving Repr

/-- Embedding of `POST /api/auth/login` (guide Step 4.2): field presence,
`findOne` with the password selected, `comparePassword`; an absent user and
a failed comparison produce the same `401 Invalid email or password`. -/
def loginPOST (store : List UserRecord) (secret : String) (b : LoginInput)
    (now : Nat) : AuthResponse :=
  if falsy b.email || falsy b.password then
    errResp 400 "Email and password are required"
  else
    let email := b.email.getD ""
    let password := b.password.getD ""
    match store.find? (fun u => u.email == normalizeEmail email) with
    | none => errResp 401 "Invalid email or password"
    | some u =>
      if !comparePassword u password then errResp 401 "Invalid email or password"
      else
        ⟨200, true, some "Login successful",
         some (generateToken secret u.id u.email now),
         some ⟨u.id, u.fullName, u.email⟩, none⟩

/-- Embedding of `GET /api/auth/me` (guide Step 4.3): resolve the user id
from the `Authorization` header; without one, `401`; with one, `findById`,
`404` when the user record is gone, otherwise the user without the digest. -/
def meGET (store : List UserRecord) (secret : String)
    (authHeader : Option (List HeaderWord)) (now : Nat) : AuthResponse :=
  match getUserIdFromHeader secret authHeader now with
  | none => errResp 401 "Unauthorized - No token provided"
  | some userId =>
    match store.find? (fun u => u.id == userId) with
    | none => errResp 404 "User not found"
    | some u => ⟨200, true, none, none, some ⟨u.id, u.fullName, u.email⟩, none⟩

/-- Todo status enum of `TodoSchema.status` (src/models/Todo.ts). -/
inductive TodoStatus
  | incomplete
  | complete
deriving Repr, DecidableEq

/-- Todo record as persisted by the shipped `TodoSchema` (src/models/Todo.ts).
The shipped schema has no owner field of any kind; `createdAt`/`updatedAt`
come from `timestamps: true`. -/
structure TodoRecord where
  id : Nat
  title : String
  description : String
  dueDate : Nat
  status : TodoStatus
  createdAt : Nat
  updatedAt : Nat
deriving Repr, DecidableEq

/-- Request body of `POST /api/todos`; absent fields are `none`.  A `status`
outside the enum would be rejected by casting; bodies are typed with the enum
directly. -/
structure TodoInput where
  title : Option String
  description : Option String
  dueDate : Option Nat
  status : Option TodoStatus
deriving Repr, DecidableEq

/-- Title validators of the shipped `TodoSchema`: `required` (absent or
empty after trimming) and `maxLength: 100`. -/
def titleError (t : String) : Option String :=
  if strTrim t = "" then some "Please provide a title"
  else if (strTrim t).length > 100 then some "Title cannot be more than 100 character"
  else none

/-- Description validators of the shipped `TodoSchema`: only `required`.
The length bound is spelled `maxilength` in the source, an option mongoose
does not recognize and silently ignores, so no 500-character limit is
enforced. -/
def descriptionError (d : String) : Option String :=
  if strTrim d = "" then some "Please provide a description" else none

/-- Validation run by `Todo.create` against the shipped schema: first failing
validator among title, description, dueDate; `status` defaults are applied
separately. -/
def todoValidateCreate (b : TodoInput) : Option String :=
  match b.title with
  | none => some "Please provide a title"
  | some t =>
    match titleError t with
    | some m => some m
    | none =>
      match b.description with
      | none => some "Please provide a description"
      | some d =>
        match descriptionError d with
        | some m => some m
        | none =>
          match b.dueDate with
          | none => some "Please provide a due date"
          | some _ => none

/-- The record built by `Todo.create` from a valid body: strings trimmed by
the schema, `status` defaulting to `incomplete`, timestamps set.  `id` models
the store-assigned ObjectId. -/
def mkTodo (id : Nat) (b : TodoInput) (now : Nat) : TodoRecord :=
  ⟨id, strTrim (b.title.getD ""), strTrim (b.description.getD ""), b.dueDate.getD 0,
   b.status.getD .incomplete, now, now⟩

/-- The `ApiResponse<ITodo>` envelope with its HTTP status. -/
structure TodoResponse where
  status : Nat
  success : Bool
  data : Option TodoRecord
  error : Option String
deriving Repr, DecidableEq

/-- The `ApiResponse<ITodo[]>` envelope with its HTTP status. -/
structure TodoListResponse where
  status : Nat
  success : Bool
  data : Option (List TodoRecord)
  error : Option String
deriving Repr, DecidableEq

/-- Insertion step of the `sort({ createdAt: -1 })` ordering. -/
def insertByCreatedAtDesc (t : TodoRecord) : List TodoRecord → List TodoRecord
  | [] => [t]
  | u :: us =>
    if u.createdAt ≤ t.createdAt then t :: u :: us else u :: insertByCreatedAtDesc t us

/-- The `sort({ createdAt: -1 })` applied by the list handler. -/
def sortByCreatedAtDesc (l : List TodoRecord) : List TodoRecord :=
  l.foldr insertByCreatedAtDesc []

/-- Embedding of the shipped `GET /api/todos` (route bundled with
src/app/page.tsx): the handler is declared without a request parameter and
runs `Todo.find({})`, so the `status` query string the UI sends is never
read.  The query argument is kept here so requests carrying one can be
stated, and is deliberately unused, mirroring the handler. -/
def todosGET (store : List TodoRecord) (statusQuery : Option String) : TodoListResponse :=
  ⟨200, true, some (sortByCreatedAtDesc store), none⟩

/-- Embedding of the shipped `POST /api/todos`: `Todo.create(body)`; schema
failures are caught and surfaced with status 400. -/
def todosPOST (store : List TodoRecord) (b : TodoInput) (now : Nat) :
    List TodoRecord × TodoResponse :=
  match todoValidateCreate b with
  | some msg => (store, ⟨400, false, none, some msg⟩)
  | none =>
    let t := mkTodo store.length b now
    (store ++ [t], ⟨201, true, some t, none⟩)

/-- The `findById` lookup used by the shipped item routes: by id only. -/
def findTodo (store : List TodoRecord) (id : Nat) : Option TodoRecord :=
  store.find? (fun t => t.id == id)

/-- Embedding of the shipped `GET /api/todos/[id]`: `Todo.findById(id)` —
no requester identity is involved at all. -/
def todosIdGET (store : List TodoRecord) (id : Nat) : TodoResponse :=
  match findTodo store id with
  | none => ⟨404, false, none, some "Todo not found"⟩
  | some t => ⟨200, true, some t, none⟩

/-- Partial update body of `PUT /api/todos/[id]` (`Partial<ITodo>`). -/
structure TodoUpdate where
  title : Option String
  description : Option String
  dueDate : Option Nat
  status : Option TodoStatus
  createdAt : Option Nat
deriving Repr, DecidableEq

/-- Update validators (`runValidators: true`): validators run on the paths
present in the update only; the description length is again unenforced. -/
def todoValidateUpdate (b : TodoUpdate) : Option String :=
  match b.title.bind titleError with
  | some m => some m
  | none => b.description.bind descriptionError

/-- Apply a partial update the way `findByIdAndUpdate` does: provided fields
are `$set` (strings trimmed by the schema setters), absent fields keep their
stored value; `timestamps` refreshes `updatedAt` and keeps `createdAt`
immutable (mongoose strips `createdAt` from updates when timestamps are
enabled). -/
def applyTodoUpdate (t : TodoRecord) (b : TodoUpdate) (now : Nat) : TodoRecord :=
  ⟨t.id, (b.title.map strTrim).getD t.title,
   (b.description.map strTrim).getD t.description,
   b.dueDate.getD t.dueDate, b.status.getD t.status, t.createdAt, now⟩

/-- Replace the first record carrying the given id. -/
def replaceTodo : List TodoRecord → Nat → TodoRecord → List TodoRecord
  | [], _, _ => []
  | u :: us, id, t => if u.id == id then t :: us else u :: replaceTodo us id t

/-- Remove the first record carrying the given id. -/
def removeTodo : List TodoRecord → Nat → List TodoRecord
  | [], _ => []
  | u :: us, id => if u.id == id then us else u :: removeTodo us id

/-- Embedding of the shipped `PUT /api/todos/[id]`:
`Todo.findByIdAndUpdate(id, body, {new: true, runValidators: true})` — the
filter is the id alone, with no owner constraint; a validation failure is
caught and surfaced with status 400; a missing id gives 404; otherwise the
updated document is stored and returned. -/
def todosIdPUT (store : List TodoRecord) (id : Nat) (b : TodoUpdate) (now : Nat) :
    List TodoRecord × TodoResponse :=
  match todoValidateUpdate b with
  | some msg => (store, ⟨400, false, none, some msg⟩)
  | none =>
    match findTodo store id with
    | none => (store, ⟨404, false, none, some "Todo not found"⟩)
    | some t =>
      let t2 := applyTodoUpdate t b now
      (replaceTodo store id t2, ⟨200, true, some t2, none⟩)

/-- Embedding of the shipped `DELETE /api/todos/[id]`:
`Todo.findByIdAndDelete(id)` — again filtered by id alone; the success
envelope carries `data: {}`, rendered here as `data = none`. -/
def todosIdDELETE (store : List TodoRecord) (id : Nat) :
    List TodoRecord × TodoResponse :=
  match findTodo store id with
  | none => (store, ⟨404, false, none, some "Todo not found"⟩)
  | some _ => (removeTodo store id, ⟨200, true, none, none⟩)

namespace AuthTodos

/-- Todo record of the guide's updated `models/Todo.ts` (guide Step 9.1):
the shipped fields plus the required `userId` owner reference. -/
structure OwnedTodo where
  id : Nat
  userId : String
  title : String
  description : String
  dueDate : Nat
  status : TodoStatus
  createdAt : Nat
  updatedAt : Nat
deriving Repr, DecidableEq

/-- The ownership filter `{ _id: params.id, userId }` of the guide's
authenticated item routes (guide Step 8.2). -/
def findOwned (store : List OwnedTodo) (id : Nat) (userId : String) : Option OwnedTodo :=
  store.find? (fun t => t.id == id && t.userId == userId)

/-- Embedding of the guide's authenticated `GET /api/todos/[id]`:
`Todo.findOne({ _id: params.id, userId })` after resolving `userId` from the
verified token; a missing or mismatched owner is one and the same `404`. -/
def ownedIdGET (store : List OwnedTodo) (secret : String)
    (authHeader : Option (List HeaderWord)) (id : Nat) (now : Nat) : TodoResponse :=
  match getUserIdFromHeader secret authHeader now with
  | none => ⟨401, false, none, some "Unauthorized"⟩
  | some userId =>
    match findOwned store id userId with
    | none => ⟨404, false, none, some "Todo not found"⟩
    | some t => ⟨200, true, some ⟨t.id, t.title, t.description, t.dueDate, t.status, t.createdAt, t.updatedAt⟩, none⟩

/-- Embedding of the guide's authenticated `DELETE /api/todos/[id]`:
`Todo.findOneAndDelete({ _id: params.id, userId })`. -/
def ownedIdDELETE (store : List OwnedTodo) (secret : String)
    (authHeader : Option (List HeaderWord)) (id : Nat) (now : Nat) :
    List OwnedTodo × TodoResponse :=
  match getUserIdFromHeader secret authHeader now with
  | none => (store, ⟨401, false, none, some "Unauthorized"⟩)
  | some userId =>
    match findOwned store id userId with
    | none => (store, ⟨404, false, none, some "Todo not found or unauthorized"⟩)
    | some _ =>
      (store.filter (fun t => !(t.id == id && t.userId == userId)), ⟨200, true, none, none⟩)

/-- Update application for the guide's `findOneAndUpdate`, as in
`applyTodoUpdate`. -/
def applyOwnedUpdate (t : OwnedTodo) (b : TodoUpdate) (now : Nat) : OwnedTodo :=
  ⟨t.id, t.userId, (b.title.map strTrim).getD t.title,
   (b.description.map strTrim).getD t.description,
   b.dueDate.getD t.dueDate, b.status.getD t.status, t.createdAt, now⟩

/-- Embedding of the guide's authenticated `PUT /api/todos/[id]`:
`Todo.findOneAndUpdate({ _id: params.id, userId }, body, {new: true,
runValidators: true})`. -/
def ownedIdPUT (store : List OwnedTodo) (secret : String)
    (authHeader : Option (List HeaderWord)) (id : Nat) (b : TodoUpdate) (now : Nat) :
    List OwnedTodo × TodoResponse :=
  match getUserIdFromHeader secret authHeader now with
  | none => (store, ⟨401, false, none, some "Unauthorized"⟩)
  | some userId =>
    match todoValidateUpdate b with
    | some msg => (store, ⟨400, false, none, some msg⟩)
    | none =>
      match findOwned store id userId with
      | none => (store, ⟨404, false, none, some "Todo not found or unauthorized"⟩)
      | some t =>
        let t2 := applyOwnedUpdate t b now
        (store.map (fun u => if u.id == id && u.userId == userId then t2 else u),
         ⟨200, true, some ⟨t2.id, t2.title, t2.description, t2.dueDate, t2.status, t2.createdAt, t2.updatedAt⟩, none⟩)

/-- Insertion step of the `sort({ createdAt: -1 })` ordering on owned
records. -/
def insertOwnedByCreatedAtDesc (t : OwnedTodo) : List OwnedTodo → List OwnedTodo
  | [] => [t]
  | u :: us =>
    if u.createdAt ≤ t.createdAt then t :: u :: us else u :: insertOwnedByCreatedAtDesc t us

/-- Embedding of the guide's authenticated `GET /api/todos` (guide Step 8.1):
the query is `{ userId }`, narrowed by `status` when the query string carries
a valid value, and the result is sorted by `createdAt` descending. -/
def ownedListGET (store : List OwnedTodo) (secret : String)
    (authHeader : Option (List HeaderWord)) (statusQuery : Option String) (now : Nat) :
    Option (List OwnedTodo) :=
  match getUserIdFromHeader secret authHeader now with
  | none => none
  | some userId =>
    let matchesQuery := fun (t : OwnedTodo) =>
      t.userId == userId &&
        match statusQuery with
        | some "complete" => t.status == TodoStatus.complete
        | some "incomplete" => t.status == TodoStatus.incomplete
        | _ => true
    some ((store.filter matchesQuery).foldr insertOwnedByCreatedAtDesc [])

end AuthTodos

namespace SignupRace

/-- One signup request: the four route fields, plus the salt its hashing
call will draw from the RNG. -/
structure Req where
  fullName : String
  email : String
  password : String
  confirmPassword : String
  salt : Nat
deriving Repr, DecidableEq

/-- Progress of one in-flight signup request, split at the route's awaited
store calls: `start` — about to run validation and the `findOne` duplicate
check; `checked` — the check passed, about to run `User.create`; `done` —
a response has been produced. -/
inductive Phase
  | start
  | checked
  | done
deriving Repr, DecidableEq

/-- One in-flight signup request. -/
structure Proc where
  req : Req
  phase : Phase
  resp : Option AuthResponse
deriving Repr, DecidableEq

/-- One scheduler turn of a signup request against the shared store: exactly
the code of `signupPOST`, split at the await between the duplicate check and
the insert; the insert's uniqueness test is atomic, performed by the store's
unique email index.  Timestamps are taken as 0: they play no role in the
race. -/
def stepProc (secret : String) (store : List UserRecord) (p : Proc) :
    List UserRecord × Proc :=
  match p.phase with
  | .done => (store, p)
  | .start =>
    if p.req.fullName == "" || p.req.email == "" || p.req.password == "" ||
        p.req.confirmPassword == "" then
      (store, { p with phase := .done, resp := some (errResp 400 "All fields are required") })
    else if p.req.password.length < 6 then
      (store,
       { p with phase := .done
                resp := some (errResp 400 "Password must be at least 6 characters") })
    else if p.req.password != p.req.confirmPassword then
      (store, { p with phase := .done, resp := some (errResp 400 "Passwords do not match") })
    else if emailTaken store p.req.email then
      (store, { p with phase := .done, resp := some (errResp 400 "Email already registered") })
    else (store, { p with phase := .checked })
  | .checked =>
    match userCreate store p.req.fullName p.req.email p.req.password p.req.salt 0 with
    | .ok store2 u => (store2, { p with phase := .done, resp := some (okSignup secret u 0) })
    | .validationError msg =>
      (store, { p with phase := .done, resp := some (errResp 500 msg) })
    | .duplicateKeyError =>
      (store,
       { p with phase := .done
                resp := some (errResp 500 "E11000 duplicate key error") })

/-- The global state: the shared user store and the two racing requests. -/
structure Sys where
  store : List UserRecord
  p1 : Proc
  p2 : Proc
deriving Repr, DecidableEq

/-- One scheduler turn: `true` advances the first request, `false` the
second. -/
def step (secret : String) (s : Sys) (which : Bool) : Sys :=
  if which then
    let r := stepProc secret s.store s.p1
    ⟨r.1, r.2, s.p2⟩
  else
    let r := stepProc secret s.store s.p2
    ⟨r.1, s.p1, r.2⟩

/-- Run a whole schedule — an arbitrary interleaving of turns. -/
def run (secret : String) (sched : List Bool) (s : Sys) : Sys :=
  sched.foldl (step secret) s

/-- The record the race's winner persists: `userCreate` applied to the
initial store. -/
def mkStored (r : Req) (s0 : List UserRecord) : UserRecord :=
  ⟨"u" ++ toString s0.length, strTrim r.fullName, normalizeEmail r.email,
   bcryptHash r.salt r.password, 0⟩

/-- All conditions under which the signup route reaches `User.create` and
the schema validators accept the document. -/
def validReq (r : Req) : Bool :=
  r.fullName != "" && r.email != "" && r.password != "" && r.confirmPassword != "" &&
  !(r.password.length < 6) && r.password == r.confirmPassword &&
  !((strTrim r.fullName).length < 3) && !((strTrim r.fullName).length > 50) &&
  emailShapeValid (normalizeEmail r.email)

/-- The two responses a losing signup can observe: the duplicate check's
400, or — when both checks passed before either insert — the unique index's
duplicate-key failure surfaced by the catch block as a 500. -/
def loserResp (r : AuthResponse) : Prop :=
  r = errResp 400 "Email already registered" ∨
  r = errResp 500 "E11000 duplicate key error"

/-- A request that has not won: still running with no response, or finished
with one of the two losing responses. -/
def loserState (p : Proc) : Prop :=
  (p.phase ≠ Phase.done ∧ p.resp = none) ∨
  (p.phase = Phase.done ∧ ∃ r, p.resp = some r ∧ loserResp r)

/-- Inductive invariant of the race: either nobody has inserted yet (store
untouched, both requests unanswered), or exactly one request has inserted
its record and the other is a loser. -/
def Inv (secret : String) (s0 : List UserRecord) (r1 r2 : Req) (s : Sys) : Prop :=
  s.p1.req = r1 ∧ s.p2.req = r2 ∧
  ((s.store = s0 ∧ s.p1.phase ≠ Phase.done ∧ s.p1.resp = none ∧
      s.p2.phase ≠ Phase.done ∧ s.p2.resp = none) ∨
   (s.store = s0 ++ [mkStored r1 s0] ∧ s.p1.phase = Phase.done ∧
      s.p1.resp = some (okSignup secret (mkStored r1 s0) 0) ∧ loserState s.p2) ∨
   (s.store = s0 ++ [mkStored r2 s0] ∧ s.p2.phase = Phase.done ∧
      s.p2.resp = some (okSignup secret (mkStored r2 s0) 0) ∧ loserState s.p1))

end SignupRace

/-! Theorems.  First the helper lemmas about the hasher model, then one
theorem per specification claim, each preceded by its claim id. -/

theorem takeWhile_replicate_stop (n : Nat) (l : List Char) :
    ((List.replicate n 's' ++ '$' :: l).takeWhile (fun c => c == 's')).length = n := by
  induction n with
  | zero => simp [List.takeWhile]
  | succ k ih => simp [List.replicate, List.takeWhile, ih]

theorem saltOf_bcryptHash (salt : Nat) (plain : String) :
    saltOf (bcryptHash salt plain) = salt := by
  unfold saltOf bcryptHash
  simp [String.data_append, takeWhile_replicate_stop]

/-- Verification succeeds on the stored digest of the same plaintext. -/
theorem bcryptCompare_bcryptHash (salt : Nat) (plain : String) :
    bcryptCompare plain (bcryptHash salt plain) = true := by
  unfold bcryptCompare
  rw [saltOf_bcryptHash]
  simp

/-- A digest is strictly longer than the plaintext it was computed from, so
the two are never equal. -/
theorem bcryptHash_ne_plain (salt : Nat) (plain : String) :
    bcryptHash salt plain ≠ plain := by
  intro h
  have hlen : (bcryptHash salt plain).data.length = plain.data.length := by rw [h]
  unfold bcryptHash at hlen
  simp [String.data_append] at hlen
  omega

/-- C4: a token issued for `(userId, email)` verifies, at any time inside the
fixed 7-day window, to exactly the original `userId` and `email`; once the
window has elapsed, verification returns nothing (the wrapper's `null`,
which every caller surfaces as a 401 `AuthError`) instead of the claims. -/
theorem token_roundtrip_and_expiry (secret userId email : String) (t0 t : Nat)
    (hissue : t0 ≤ t) :
    (t < t0 + sevenDays →
      (jwtVerify secret (generateToken secret userId email t0) t).map
          (fun p => (p.userId, p.email)) = some (userId, email)) ∧
    (t0 + sevenDays ≤ t →
      jwtVerify secret (generateToken secret userId email t0) t = none) := by
  constructor
  · intro hin
    simp [jwtVerify, generateToken, hin]
  · intro hout
    simp [jwtVerify, generateToken]
    omega

/-- Witness for C4 at concrete inputs: inside the window the original pair
comes back; at the expiry instant verification fails. -/
theorem token_roundtrip_and_expiry_witness :
    ((jwtVerify "k" (generateToken "k" "u0" "jane@x.com" 100) 604099).map
        (fun p => (p.userId, p.email)) = some ("u0", "jane@x.com")) ∧
    jwtVerify "k" (generateToken "k" "u0" "jane@x.com" 100) 604900 = none := by
  constructor
  · exact (token_roundtrip_and_expiry "k" "u0" "jane@x.com" 100 604099 (by decide)).1 (by decide)
  · exact (token_roundtrip_and_expiry "k" "u0" "jane@x.com" 100 604900 (by decide)).2 (by decide)

/-- C3: a valid signup persists a record whose `password` value is the bcrypt
digest — never the plaintext — and verifying the plaintext against the
stored digest succeeds.  The hypotheses are exactly the route's and schema's
validity conditions for the signup. -/
theorem signup_stores_hash_not_plaintext (store : List UserRecord)
    (secret fn em pw : String) (salt now : Nat)
    (hfn : fn ≠ "") (hem : em ≠ "")
    (hfn3 : 3 ≤ (strTrim fn).length) (hfn50 : (strTrim fn).length ≤ 50)
    (hshape : emailShapeValid (normalizeEmail em) = true)
    (hpw : 6 ≤ pw.length)
    (hfree : emailTaken store em = false) :
    ∃ u : UserRecord,
      signupPOST store secret ⟨some fn, some em, some pw, some pw⟩ salt now =
        (store ++ [u], okSignup secret u now) ∧
      u.password = bcryptHash salt pw ∧
      u.password ≠ pw ∧
      bcryptCompare pw u.password = true := by
  have hpw0 : pw ≠ "" := by
    intro h
    rw [h] at hpw
    simp at hpw
  refine ⟨⟨"u" ++ toString store.length, strTrim fn, normalizeEmail em,
    bcryptHash salt pw, now⟩, ?_, rfl, ?_, ?_⟩
  · have h1 : ¬((strTrim fn).length < 3) := by omega
    have h2 : ¬((strTrim fn).length > 50) := by omega
    have h3 : ¬(pw.length < 6) := by omega
    simp [signupPOST, falsy, userCreate, hfn, hem, hpw0, hfree, hshape, h1, h2, h3]
  · intro h
    exact bcryptHash_ne_plain salt pw h
  · exact bcryptCompare_bcryptHash salt pw

/-- Witness for C3 at a concrete signup. -/
theorem signup_stores_hash_not_plaintext_witness :
    ∃ u : UserRecord,
      signupPOST [] "k" ⟨some "Jane Doe", some "jane@x.com", some "secret1", some "secret1"⟩ 2 5 =
        ([] ++ [u], okSignup "k" u 5) ∧
      u.password = bcryptHash 2 "secret1" ∧
      u.password ≠ "secret1" ∧
      bcryptCompare "secret1" u.password = true :=
  signup_stores_hash_not_plaintext [] "k" "Jane Doe" "jane@x.com" "secret1" 2 5
    (by decide) (by decide) (by decide) (by decide) (by decide) (by decide) (by decide)

/-- C5: for a stored user, logging in with a password that fails bcrypt
verification produces the very same response — status 401, `success: false`,
error string `Invalid email or password` — as logging in with an email for
which no user exists, so the two failure causes are indistinguishable to the
client. -/
theorem login_failures_indistinguishable (store : List UserRecord)
    (secret e p e2 p2 : String) (now now2 : Nat) (u : UserRecord)
    (he : e ≠ "") (hp : p ≠ "") (he2 : e2 ≠ "") (hp2 : p2 ≠ "")
    (hfound : store.find? (fun v => v.email == normalizeEmail e) = some u)
    (hbad : bcryptCompare p u.password = false)
    (hmissing : store.find? (fun v => v.email == normalizeEmail e2) = none) :
    loginPOST store secret ⟨some e, some p⟩ now = errResp 401 "Invalid email or password" ∧
    loginPOST store secret ⟨some e2, some p2⟩ now2 = errResp 401 "Invalid email or password" := by
  constructor
  · simp [loginPOST, falsy, he, hp, hfound, comparePassword, hbad]
  · simp [loginPOST, falsy, he2, hp2, hmissing]

/-- Witness for C5: one stored user; a wrong password for the stored email
and a probe of an absent email yield the identical error response. -/
theorem login_failures_indistinguishable_witness :
    loginPOST [⟨"u0", "Jane Doe", "jane@x.com", bcryptHash 2 "secret1", 0⟩] "k"
        ⟨some "jane@x.com", some "wrong123"⟩ 9 = errResp 401 "Invalid email or password" ∧
    loginPOST [⟨"u0", "Jane Doe", "jane@x.com", bcryptHash 2 "secret1", 0⟩] "k"
        ⟨some "ghost@x.com", some "whatever"⟩ 11 = errResp 401 "Invalid email or password" :=
  login_failures_indistinguishable
    [⟨"u0", "Jane Doe", "jane@x.com", bcryptHash 2 "secret1", 0⟩]
    "k" "jane@x.com" "wrong123" "ghost@x.com" "whatever" 9 11
    ⟨"u0", "Jane Doe", "jane@x.com", bcryptHash 2 "secret1", 0⟩
    (by decide) (by decide) (by decide) (by decide) (by decide) (by decide) (by decide)

/-- C7: the `me` endpoint answers 401 whenever the token is missing (no
header), the header is malformed (anything but `Bearer <credential>`), the
credential is not a verifiable JWT (plain text, or a signature made with a
different secret), or the token is expired; for a valid unexpired token of a
user present in the store it returns exactly `{_id, fullName, email}` — a
shape with no password field at all. -/
theorem whoami_auth_and_no_hash (store : List UserRecord) (secret : String) (now : Nat) :
    (meGET store secret none now = errResp 401 "Unauthorized - No token provided") ∧
    (∀ parts : List HeaderWord, extractTokenFromHeader (some parts) = none →
      meGET store secret (some parts) now = errResp 401 "Unauthorized - No token provided") ∧
    (∀ s : String,
      meGET store secret (some [HeaderWord.plain "Bearer", HeaderWord.plain s]) now =
        errResp 401 "Unauthorized - No token provided") ∧
    (∀ t : Token, t.sig ≠ (t.payload, secret) →
      meGET store secret (some [HeaderWord.plain "Bearer", HeaderWord.tok t]) now =
        errResp 401 "Unauthorized - No token provided") ∧
    (∀ t : Token, t.payload.exp ≤ now →
      meGET store secret (some [HeaderWord.plain "Bearer", HeaderWord.tok t]) now =
        errResp 401 "Unauthorized - No token provided") ∧
    (∀ (u : UserRecord) (t0 : Nat), u.id ≠ "" → now < t0 + sevenDays →
      store.find? (fun v => v.id == u.id) = some u →
      meGET store secret
          (some [HeaderWord.plain "Bearer",
                 HeaderWord.tok (generateToken secret u.id u.email t0)]) now =
        ⟨200, true, none, none, some ⟨u.id, u.fullName, u.email⟩, none⟩) := by
  refine ⟨?_, ?_, ?_, ?_, ?_, ?_⟩
  · simp [meGET, getUserIdFromHeader, extractTokenFromHeader]
  · intro parts hnone
    simp [meGET, getUserIdFromHeader, hnone]
  · intro s
    simp [meGET, getUserIdFromHeader, extractTokenFromHeader]
  · intro t hsig
    simp [meGET, getUserIdFromHeader, extractTokenFromHeader, jwtVerify, hsig]
  · intro t hexp
    have h : ¬(now < t.payload.exp) := by omega
    simp [meGET, getUserIdFromHeader, extractTokenFromHeader, jwtVerify, h]
  · intro u t0 hid hin hfound
    simp [meGET, getUserIdFromHeader, extractTokenFromHeader, jwtVerify,
      generateToken, hin, hid, hfound]

/-- Witness for C7: a missing header is rejected; a valid fresh token of a
stored user returns that user's id, name and email. -/
theorem whoami_auth_and_no_hash_witness :
    (meGET [⟨"u0", "Jane Doe", "jane@x.com", bcryptHash 2 "secret1", 0⟩] "k" none 5 =
      errResp 401 "Unauthorized - No token provided") ∧
    (meGET [⟨"u0", "Jane Doe", "jane@x.com", bcryptHash 2 "secret1", 0⟩] "k"
        (some [HeaderWord.plain "Bearer",
               HeaderWord.tok (generateToken "k" "u0" "jane@x.com" 1)]) 5 =
      ⟨200, true, none, none, some ⟨"u0", "Jane Doe", "jane@x.com"⟩, none⟩) := by
  constructor
  · exact (whoami_auth_and_no_hash
      [⟨"u0", "Jane Doe", "jane@x.com", bcryptHash 2 "secret1", 0⟩] "k" 5).1
  · exact (whoami_auth_and_no_hash
      [⟨"u0", "Jane Doe", "jane@x.com", bcryptHash 2 "secret1", 0⟩] "k" 5).2.2.2.2.2
      ⟨"u0", "Jane Doe", "jane@x.com", bcryptHash 2 "secret1", 0⟩ 1
      (by decide) (by decide) (by decide)

/-- C6 (amended): signup answers `ValidationError` (400) when a field is
missing or empty, the password is shorter than 6 characters, or the two
passwords differ; `DuplicateEmailError` (400) when the email is already
taken; when the remaining `User` schema validators reject the fields
(trimmed full name shorter than 3 or longer than 50 characters, or an email
not of valid shape) the `User.create` failure is surfaced as a 500 error;
otherwise it persists the user with the hashed password and returns status
201 with a token and the user as `{_id, fullName, email}`, without the
password digest. -/
theorem signup_endpoint_behavior (store : List UserRecord) (secret : String)
    (b : SignupInput) (salt now : Nat) :
    ((falsy b.fullName || falsy b.email || falsy b.password || falsy b.confirmPassword) = true →
      signupPOST store secret b salt now = (store, errResp 400 "All fields are required")) ∧
    ((falsy b.fullName || falsy b.email || falsy b.password || falsy b.confirmPassword) = false →
      (b.password.getD "").length < 6 →
      signupPOST store secret b salt now =
        (store, errResp 400 "Password must be at least 6 characters")) ∧
    ((falsy b.fullName || falsy b.email || falsy b.password || falsy b.confirmPassword) = false →
      ¬((b.password.getD "").length < 6) →
      b.password.getD "" ≠ b.confirmPassword.getD "" →
      signupPOST store secret b salt now = (store, errResp 400 "Passwords do not match")) ∧
    ((falsy b.fullName || falsy b.email || falsy b.password || falsy b.confirmPassword) = false →
      ¬((b.password.getD "").length < 6) →
      b.password.getD "" = b.confirmPassword.getD "" →
      emailTaken store (b.email.getD "") = true →
      signupPOST store secret b salt now = (store, errResp 400 "Email already registered")) ∧
    ((falsy b.fullName || falsy b.email || falsy b.password || falsy b.confirmPassword) = false →
      ¬((b.password.getD "").length < 6) →
      b.password.getD "" = b.confirmPassword.getD "" →
      emailTaken store (b.email.getD "") = false →
      ((strTrim (b.fullName.getD "")).length < 3 ∨ (strTrim (b.fullName.getD "")).length > 50 ∨
        emailShapeValid (normalizeEmail (b.email.getD "")) = false) →
      ∃ msg : String, signupPOST store secret b salt now = (store, errResp 500 msg)) ∧
    ((falsy b.fullName || falsy b.email || falsy b.password || falsy b.confirmPassword) = false →
      ¬((b.password.getD "").length < 6) →
      b.password.getD "" = b.confirmPassword.getD "" →
      emailTaken store (b.email.getD "") = false →
      3 ≤ (strTrim (b.fullName.getD "")).length →
      (strTrim (b.fullName.getD "")).length ≤ 50 →
      emailShapeValid (normalizeEmail (b.email.getD "")) = true →
      signupPOST store secret b salt now =
        (store ++ [⟨"u" ++ toString store.length, strTrim (b.fullName.getD ""),
                    normalizeEmail (b.email.getD ""), bcryptHash salt (b.password.getD ""), now⟩],
         okSignup secret
           ⟨"u" ++ toString store.length, strTrim (b.fullName.getD ""),
            normalizeEmail (b.email.getD ""), bcryptHash salt (b.password.getD ""), now⟩ now)) := by
  refine ⟨?_, ?_, ?_, ?_, ?_, ?_⟩
  · intro hmiss
    simp [signupPOST, hmiss]
  · intro hmiss hpw
    simp [signupPOST, hmiss, hpw]
  · intro hmiss hpw hne
    simp [signupPOST, hmiss, hpw, hne]
  · intro hmiss hpw heq htaken
    have hpw2 : ¬((b.confirmPassword.getD "").length < 6) := heq ▸ hpw
    simp [signupPOST, hmiss, hpw, hpw2, heq, htaken]
  · intro hmiss hpw heq hfree hbad
    have hpw2 : ¬((b.confirmPassword.getD "").length < 6) := heq ▸ hpw
    rcases hbad with h | h | h
    · refine ⟨"Name must be atleast 3 characters", ?_⟩
      simp [signupPOST, userCreate, hmiss, hpw, hpw2, heq, hfree, h]
    · have h3 : ¬((strTrim (b.fullName.getD "")).length < 3) := by omega
      refine ⟨"Name cannot exceed 50 characters", ?_⟩
      simp [signupPOST, userCreate, hmiss, hpw, hpw2, heq, hfree, h, h3]
    · by_cases h3 : (strTrim (b.fullName.getD "")).length < 3
      · refine ⟨"Name must be atleast 3 characters", ?_⟩
        simp [signupPOST, userCreate, hmiss, hpw, hpw2, heq, hfree, h3]
      · by_cases h50 : (strTrim (b.fullName.getD "")).length > 50
        · refine ⟨"Name cannot exceed 50 characters", ?_⟩
          simp [signupPOST, userCreate, hmiss, hpw, hpw2, heq, hfree, h3, h50]
        · refine ⟨"Please provide a valid email address", ?_⟩
          simp [signupPOST, userCreate, hmiss, hpw, hpw2, heq, hfree, h3, h50, h]
  · intro hmiss hpw heq hfree h3 h50 hshape
    have hpw2 : ¬((b.confirmPassword.getD "").length < 6) := heq ▸ hpw
    have h3n : ¬((strTrim (b.fullName.getD "")).length < 3) := by omega
    have h50n : ¬((strTrim (b.fullName.getD "")).length > 50) := by omega
    simp [signupPOST, userCreate, hmiss, hpw, hpw2, heq, hfree, h3n, h50n, hshape]

/-- Counterexample for C6 as stated: the signup body with full name `ab` has
no missing field, a long enough and confirmed password, and a fresh email,
so the claim promises success — yet the endpoint answers a 500 failure from
the schema's minimum-length validator, not a created user. -/
theorem signup_claim_counterexample :
    (falsy (some "ab") || falsy (some "a@b.c") || falsy (some "secret1") ||
      falsy (some "secret1")) = false ∧
    ¬(("secret1" : String).length < 6) ∧
    ("secret1" : String) = "secret1" ∧
    emailTaken [] "a@b.c" = false ∧
    signupPOST [] "k" ⟨some "ab", some "a@b.c", some "secret1", some "secret1"⟩ 2 5 =
      ([], errResp 500 "Name must be atleast 3 characters") := by
  refine ⟨by decide, by decide, rfl, by decide, ?_⟩
  simp [signupPOST, userCreate, falsy, emailTaken, normalizeEmail, strLower, strTrim]
  decide

/-- Witness for C6 (amended): a fully valid signup creates the user and
returns the 201 envelope with the token and the hash-free user object. -/
theorem signup_endpoint_behavior_witness :
    signupPOST [] "k" ⟨some "Jane Doe", some "jane@x.com", some "secret1", some "secret1"⟩ 2 5 =
      ([⟨"u0", "Jane Doe", "jane@x.com", bcryptHash 2 "secret1", 5⟩],
       okSignup "k" ⟨"u0", "Jane Doe", "jane@x.com", bcryptHash 2 "secret1", 5⟩ 5) := by
  have h := (signup_endpoint_behavior [] "k"
    ⟨some "Jane Doe", some "jane@x.com", some "secret1", some "secret1"⟩ 2 5).2.2.2.2.2
    (by decide) (by decide) (by decide) (by decide) (by decide) (by decide) (by decide)
  simpa [strTrim, normalizeEmail, strLower] using h

/-- C1: evaluation of the shipped item routes at the failing input.  The
store holds a single item (in the claimed scenario, another user's item);
the shipped `GET`/`PUT`/`DELETE` by id carry no requester identity and
filter by id alone, so each succeeds with status 200 for any caller instead
of answering `NotFoundError` — there is no `{id, ownerId}` filter and the
shipped `TodoSchema` has no owner field to filter on. -/
theorem shipped_item_routes_have_no_ownership_filter :
    todosIdGET [⟨7, "Pay rent", "another users item", 1, TodoStatus.incomplete, 0, 0⟩] 7 =
      ⟨200, true, some ⟨7, "Pay rent", "another users item", 1, TodoStatus.incomplete, 0, 0⟩, none⟩ ∧
    todosIdPUT [⟨7, "Pay rent", "another users item", 1, TodoStatus.incomplete, 0, 0⟩] 7
        ⟨none, none, none, some TodoStatus.complete, none⟩ 5 =
      ([⟨7, "Pay rent", "another users item", 1, TodoStatus.complete, 0, 5⟩],
       ⟨200, true, some ⟨7, "Pay rent", "another users item", 1, TodoStatus.complete, 0, 5⟩, none⟩) ∧
    todosIdDELETE [⟨7, "Pay rent", "another users item", 1, TodoStatus.incomplete, 0, 0⟩] 7 =
      ([], ⟨200, true, none, none⟩) := by
  decide

/-- By contrast, the guide's authenticated item routes (Step 8.2) answer 404
for every item id the requester does not own: the `{_id, userId}` filter
makes a foreign item indistinguishable from a missing one. -/
theorem owned_routes_hide_foreign_items (store : List AuthTodos.OwnedTodo)
    (secret a e : String) (t0 now id : Nat) (b : TodoUpdate)
    (ha : a ≠ "") (hfresh : now < t0 + sevenDays) (hval : todoValidateUpdate b = none)
    (hforeign : ∀ t ∈ store, t.id = id → t.userId ≠ a) :
    AuthTodos.ownedIdGET store secret
        (some [HeaderWord.plain "Bearer", HeaderWord.tok (generateToken secret a e t0)]) id now =
      ⟨404, false, none, some "Todo not found"⟩ ∧
    AuthTodos.ownedIdPUT store secret
        (some [HeaderWord.plain "Bearer", HeaderWord.tok (generateToken secret a e t0)]) id b now =
      (store, ⟨404, false, none, some "Todo not found or unauthorized"⟩) ∧
    AuthTodos.ownedIdDELETE store secret
        (some [HeaderWord.plain "Bearer", HeaderWord.tok (generateToken secret a e t0)]) id now =
      (store, ⟨404, false, none, some "Todo not found or unauthorized"⟩) := by
  have hnone : AuthTodos.findOwned store id a = none := by
    rw [AuthTodos.findOwned, List.find?_eq_none]
    intro t ht
    simp only [Bool.and_eq_true, beq_iff_eq, not_and]
    intro hid
    exact hforeign t ht hid
  refine ⟨?_, ?_, ?_⟩
  · simp [AuthTodos.ownedIdGET, getUserIdFromHeader, extractTokenFromHeader, jwtVerify,
      generateToken, hfresh, ha, hnone]
  · simp [AuthTodos.ownedIdPUT, getUserIdFromHeader, extractTokenFromHeader, jwtVerify,
      generateToken, hfresh, ha, hval, hnone]
  · simp [AuthTodos.ownedIdDELETE, getUserIdFromHeader, extractTokenFromHeader, jwtVerify,
      generateToken, hfresh, ha, hnone]

/-- C8: evaluation of the scenario on the shipped routes.  Creating the item
with `status` omitted stores it as `incomplete`, and toggling it to
`complete` via `PUT` succeeds; but the shipped list handler ignores the
query string, so the toggled item appears not only under `?status=complete`
but also under `?status=incomplete`, where the claim says it is excluded. -/
theorem status_default_and_filter_ignored :
    todosPOST [] ⟨some "Pay rent", some "Monthly apartment rent", some 1735689600, none⟩ 10 =
      ([⟨0, "Pay rent", "Monthly apartment rent", 1735689600, TodoStatus.incomplete, 10, 10⟩],
       ⟨201, true, some ⟨0, "Pay rent", "Monthly apartment rent", 1735689600,
                         TodoStatus.incomplete, 10, 10⟩, none⟩) ∧
    todosIdPUT [⟨0, "Pay rent", "Monthly apartment rent", 1735689600, TodoStatus.incomplete, 10, 10⟩]
        0 ⟨none, none, none, some TodoStatus.complete, none⟩ 20 =
      ([⟨0, "Pay rent", "Monthly apartment rent", 1735689600, TodoStatus.complete, 10, 20⟩],
       ⟨200, true, some ⟨0, "Pay rent", "Monthly apartment rent", 1735689600,
                         TodoStatus.complete, 10, 20⟩, none⟩) ∧
    (todosGET [⟨0, "Pay rent", "Monthly apartment rent", 1735689600, TodoStatus.complete, 10, 20⟩]
        (some "complete")).data =
      some [⟨0, "Pay rent", "Monthly apartment rent", 1735689600, TodoStatus.complete, 10, 20⟩] ∧
    (todosGET [⟨0, "Pay rent", "Monthly apartment rent", 1735689600, TodoStatus.complete, 10, 20⟩]
        (some "incomplete")).data =
      some [⟨0, "Pay rent", "Monthly apartment rent", 1735689600, TodoStatus.complete, 10, 20⟩] := by
  decide

set_option maxRecDepth 10000 in
/-- C9: evaluation of the shipped create validation at the failing input.  A
501-character description is accepted with status 201 and stored untruncated
— the schema spells the bound `maxilength`, which mongoose ignores — while
the parallel 100-character title bound (spelled correctly) does reject a
101-character title. -/
theorem description_length_not_enforced :
    (String.mk (List.replicate 501 'a')).length = 501 ∧
    todosPOST [] ⟨some "T", some (String.mk (List.replicate 501 'a')), some 1, none⟩ 0 =
      ([⟨0, "T", String.mk (List.replicate 501 'a'), 1, TodoStatus.incomplete, 0, 0⟩],
       ⟨201, true, some ⟨0, "T", String.mk (List.replicate 501 'a'), 1,
                         TodoStatus.incomplete, 0, 0⟩, none⟩) ∧
    todosPOST [] ⟨some (String.mk (List.replicate 101 'a')), some "d", some 1, none⟩ 0 =
      ([], ⟨400, false, none, some "Title cannot be more than 100 character"⟩) := by
  refine ⟨by decide, ?_, ?_⟩ <;> decide

theorem findTodo_replaceTodo (store : List TodoRecord) (id : Nat) (t t2 : TodoRecord)
    (hfind : findTodo store id = some t) (hid : t2.id = id) :
    findTodo (replaceTodo store id t2) id = some t2 := by
  induction store with
  | nil => simp [findTodo] at hfind
  | cons u us ih =>
    cases hui : u.id == id with
    | true => simp [findTodo, replaceTodo, List.find?, hui, hid]
    | false =>
      have hfind2 : findTodo us id = some t := by
        simpa [findTodo, List.find?, hui] using hfind
      simpa [findTodo, replaceTodo, List.find?, hui] using ih hfind2

/-- C10: a `PUT` whose body carries only some of the fields leaves every
absent field — title, description, dueDate, status, and always createdAt —
at its stored value, both in the document returned by the route (`new: true`)
and in the record persisted in the store. -/
theorem partial_update_preserves_absent_fields (store : List TodoRecord) (id : Nat)
    (b : TodoUpdate) (t : TodoRecord) (now : Nat)
    (hfind : findTodo store id = some t)
    (hval : todoValidateUpdate b = none) :
    ∃ t2 : TodoRecord,
      todosIdPUT store id b now = (replaceTodo store id t2, ⟨200, true, some t2, none⟩) ∧
      (b.title = none → t2.title = t.title) ∧
      (b.description = none → t2.description = t.description) ∧
      (b.dueDate = none → t2.dueDate = t.dueDate) ∧
      (b.status = none → t2.status = t.status) ∧
      t2.createdAt = t.createdAt ∧
      findTodo (todosIdPUT store id b now).1 id = some t2 := by
  have hid : t.id = id := by
    have hp := List.find?_some hfind
    simpa using hp
  refine ⟨applyTodoUpdate t b now, ?_, ?_, ?_, ?_, ?_, rfl, ?_⟩
  · simp [todosIdPUT, hval, hfind]
  · intro h
    simp [applyTodoUpdate, h]
  · intro h
    simp [applyTodoUpdate, h]
  · intro h
    simp [applyTodoUpdate, h]
  · intro h
    simp [applyTodoUpdate, h]
  · have h1 : (todosIdPUT store id b now).1 = replaceTodo store id (applyTodoUpdate t b now) := by
      simp [todosIdPUT, hval, hfind]
    rw [h1]
    exact findTodo_replaceTodo store id t (applyTodoUpdate t b now) hfind hid

/-- Witness for C10: updating only the status of a stored item keeps its
title, description, due date and creation time. -/
theorem partial_update_preserves_absent_fields_witness :
    findTodo [⟨1, "Pay rent", "monthly", 9, TodoStatus.incomplete, 3, 4⟩] 1 =
      some ⟨1, "Pay rent", "monthly", 9, TodoStatus.incomplete, 3, 4⟩ ∧
    todoValidateUpdate ⟨none, none, none, some TodoStatus.complete, none⟩ = none ∧
    ∃ t2 : TodoRecord,
      todosIdPUT [⟨1, "Pay rent", "monthly", 9, TodoStatus.incomplete, 3, 4⟩] 1
          ⟨none, none, none, some TodoStatus.complete, none⟩ 8 =
        (replaceTodo [⟨1, "Pay rent", "monthly", 9, TodoStatus.incomplete, 3, 4⟩] 1 t2,
         ⟨200, true, some t2, none⟩) ∧
      (TodoUpdate.title ⟨none, none, none, some TodoStatus.complete, none⟩ = none →
        t2.title = "Pay rent") ∧
      (TodoUpdate.description ⟨none, none, none, some TodoStatus.complete, none⟩ = none →
        t2.description = "monthly") ∧
      (TodoUpdate.dueDate ⟨none, none, none, some TodoStatus.complete, none⟩ = none →
        t2.dueDate = 9) ∧
      (TodoUpdate.status ⟨none, none, none, some TodoStatus.complete, none⟩ = none →
        t2.status = TodoStatus.incomplete) ∧
      t2.createdAt = 3 ∧
      findTodo (todosIdPUT [⟨1, "Pay rent", "monthly", 9, TodoStatus.incomplete, 3, 4⟩] 1
          ⟨none, none, none, some TodoStatus.complete, none⟩ 8).1 1 = some t2 :=
  ⟨by decide, by decide,
   partial_update_preserves_absent_fields
     [⟨1, "Pay rent", "monthly", 9, TodoStatus.incomplete, 3, 4⟩] 1
     ⟨none, none, none, some TodoStatus.complete, none⟩
     ⟨1, "Pay rent", "monthly", 9, TodoStatus.incomplete, 3, 4⟩ 8
     (by decide) (by decide)⟩

theorem emailTaken_key_congr (store : List UserRecord) (e1 e2 : String)
    (h : normalizeEmail e1 = normalizeEmail e2) :
    emailTaken store e1 = emailTaken store e2 := by
  unfold emailTaken
  rw [h]

theorem emailTaken_append_of_eq (s0 : List UserRecord) (u : UserRecord) (e : String)
    (h : u.email = normalizeEmail e) : emailTaken (s0 ++ [u]) e = true := by
  induction s0 with
  | nil => simp [emailTaken, List.find?, h]
  | cons v vs ih =>
    cases hv : v.email == normalizeEmail e with
    | true => simp [emailTaken, List.find?, hv]
    | false =>
      simp only [emailTaken, List.cons_append, List.find?, hv] at ih ⊢
      exact ih

namespace SignupRace

theorem validReq_fields (r : Req) (hv : validReq r = true) :
    r.fullName ≠ "" ∧ r.email ≠ "" ∧ r.password ≠ "" ∧ r.confirmPassword ≠ "" ∧
    6 ≤ r.password.length ∧ r.password = r.confirmPassword ∧
    3 ≤ (strTrim r.fullName).length ∧ (strTrim r.fullName).length ≤ 50 ∧
    emailShapeValid (normalizeEmail r.email) = true := by
  simp [validReq] at hv
  tauto

theorem userCreate_ok_of_valid (s0 : List UserRecord) (r : Req)
    (hv : validReq r = true) (hfree : emailTaken s0 r.email = false) :
    userCreate s0 r.fullName r.email r.password r.salt 0 =
      CreateUserResult.ok (s0 ++ [mkStored r s0]) (mkStored r s0) := by
  obtain ⟨h1, h2, h3, h4, h5, h6, h7, h8, h9⟩ := validReq_fields r hv
  have h5n : ¬(r.password.length < 6) := by omega
  have h7n : ¬((strTrim r.fullName).length < 3) := by omega
  have h8n : ¬((strTrim r.fullName).length > 50) := by omega
  simp [userCreate, mkStored, h5n, h7n, h8n, h9, hfree]

theorem userCreate_dup_of_taken (store : List UserRecord) (r : Req)
    (hv : validReq r = true) (htaken : emailTaken store r.email = true) :
    userCreate store r.fullName r.email r.password r.salt 0 =
      CreateUserResult.duplicateKeyError := by
  obtain ⟨h1, h2, h3, h4, h5, h6, h7, h8, h9⟩ := validReq_fields r hv
  have h5n : ¬(r.password.length < 6) := by omega
  have h7n : ¬((strTrim r.fullName).length < 3) := by omega
  have h8n : ¬((strTrim r.fullName).length > 50) := by omega
  simp [userCreate, h5n, h7n, h8n, h9, htaken]

theorem stepProc_start_free (secret : String) (store : List UserRecord) (p : Proc)
    (hph : p.phase = Phase.start) (hv : validReq p.req = true)
    (hfree : emailTaken store p.req.email = false) :
    stepProc secret store p = (store, { p with phase := Phase.checked }) := by
  obtain ⟨h1, h2, h3, h4, h5, h6, -, -, -⟩ := validReq_fields p.req hv
  have h5n : ¬(p.req.password.length < 6) := by omega
  have h5c : ¬(p.req.confirmPassword.length < 6) := by rw [← h6]; omega
  simp [stepProc, hph, h1, h2, h3, h4, h5n, h5c, h6, hfree]

theorem stepProc_start_taken (secret : String) (store : List UserRecord) (p : Proc)
    (hph : p.phase = Phase.start) (hv : validReq p.req = true)
    (htaken : emailTaken store p.req.email = true) :
    stepProc secret store p =
      (store,
       { p with phase := Phase.done
                resp := some (errResp 400 "Email already registered") }) := by
  obtain ⟨h1, h2, h3, h4, h5, h6, -, -, -⟩ := validReq_fields p.req hv
  have h5n : ¬(p.req.password.length < 6) := by omega
  have h5c : ¬(p.req.confirmPassword.length < 6) := by rw [← h6]; omega
  simp [stepProc, hph, h1, h2, h3, h4, h5n, h5c, h6, htaken]

theorem stepProc_checked_free (secret : String) (store : List UserRecord) (p : Proc)
    (hph : p.phase = Phase.checked) (hv : validReq p.req = true)
    (hfree : emailTaken store p.req.email = false) :
    stepProc secret store p =
      (store ++ [mkStored p.req store],
       { p with phase := Phase.done
                resp := some (okSignup secret (mkStored p.req store) 0) }) := by
  simp [stepProc, hph, userCreate_ok_of_valid store p.req hv hfree]

theorem stepProc_checked_taken (secret : String) (store : List UserRecord) (p : Proc)
    (hph : p.phase = Phase.checked) (hv : validReq p.req = true)
    (htaken : emailTaken store p.req.email = true) :
    stepProc secret store p =
      (store,
       { p with phase := Phase.done
                resp := some (errResp 500 "E11000 duplicate key error") }) := by
  simp [stepProc, hph, userCreate_dup_of_taken store p.req hv htaken]

theorem stepProc_done (secret : String) (store : List UserRecord) (p : Proc)
    (hph : p.phase = Phase.done) : stepProc secret store p = (store, p) := by
  simp [stepProc, hph]

/-- The race invariant is preserved by every scheduler turn. -/
theorem Inv_step (secret : String) (s0 : List UserRecord) (r1 r2 : Req)
    (hv1 : validReq r1 = true) (hv2 : validReq r2 = true)
    (hkey : normalizeEmail r1.email = normalizeEmail r2.email)
    (hfree : emailTaken s0 r1.email = false)
    (s : Sys) (hs : Inv secret s0 r1 r2 s) (which : Bool) :
    Inv secret s0 r1 r2 (step secret s which) := by
  obtain ⟨hq1, hq2, hcase⟩ := hs
  have hfree2 : emailTaken s0 r2.email = false := by
    rw [← emailTaken_key_congr s0 r1.email r2.email hkey]
    exact hfree
  have hu1 : (mkStored r1 s0).email = normalizeEmail r2.email := by
    simp [mkStored, hkey]
  have hu2 : (mkStored r2 s0).email = normalizeEmail r1.email := by
    simp [mkStored, hkey]
  rcases hcase with ⟨hst, hph1, hr1, hph2, hr2⟩ | ⟨hst, hph1, hr1, hlos⟩ | ⟨hst, hph2, hr2, hlos⟩
  · -- nobody has inserted yet
    cases which with
    | true =>
      cases hp : s.p1.phase with
      | done => exact absurd hp hph1
      | start =>
        have hstep : step secret s true = ⟨s.store, { s.p1 with phase := Phase.checked }, s.p2⟩ := by
          simp [step, stepProc_start_free secret s.store s.p1 hp
            (by rw [hq1]; exact hv1) (by rw [hst, hq1]; exact hfree)]
        rw [hstep]
        exact ⟨hq1, hq2, Or.inl ⟨hst, by simp, by simpa using hr1, hph2, hr2⟩⟩
      | checked =>
        have hstep : step secret s true =
            ⟨s.store ++ [mkStored s.p1.req s.store],
             { s.p1 with phase := Phase.done
                         resp := some (okSignup secret (mkStored s.p1.req s.store) 0) },
             s.p2⟩ := by
          simp [step, stepProc_checked_free secret s.store s.p1 hp
            (by rw [hq1]; exact hv1) (by rw [hst, hq1]; exact hfree)]
        rw [hstep]
        refine ⟨hq1, hq2, Or.inr (Or.inl ⟨?_, by simp, ?_, Or.inl ⟨hph2, hr2⟩⟩)⟩
        · rw [hst, hq1]
        · simp [hst, hq1]
    | false =>
      cases hp : s.p2.phase with
      | done => exact absurd hp hph2
      | start =>
        have hstep : step secret s false = ⟨s.store, s.p1, { s.p2 with phase := Phase.checked }⟩ := by
          simp [step, stepProc_start_free secret s.store s.p2 hp
            (by rw [hq2]; exact hv2) (by rw [hst, hq2]; exact hfree2)]
        rw [hstep]
        exact ⟨hq1, hq2, Or.inl ⟨hst, hph1, hr1, by simp, by simpa using hr2⟩⟩
      | checked =>
        have hstep : step secret s false =
            ⟨s.store ++ [mkStored s.p2.req s.store], s.p1,
             { s.p2 with phase := Phase.done
                         resp := some (okSignup secret (mkStored s.p2.req s.store) 0) }⟩ := by
          simp [step, stepProc_checked_free secret s.store s.p2 hp
            (by rw [hq2]; exact hv2) (by rw [hst, hq2]; exact hfree2)]
        rw [hstep]
        refine ⟨hq1, hq2, Or.inr (Or.inr ⟨?_, by simp, ?_, Or.inl ⟨hph1, hr1⟩⟩)⟩
        · rw [hst, hq2]
        · simp [hst, hq2]
  · -- the first request has won
    cases which with
    | true =>
      have hstep : step secret s true = s := by
        simp [step, stepProc_done secret s.store s.p1 hph1]
      rw [hstep]
      exact ⟨hq1, hq2, Or.inr (Or.inl ⟨hst, hph1, hr1, hlos⟩)⟩
    | false =>
      have htaken : emailTaken s.store s.p2.req.email = true := by
        rw [hst, hq2]
        exact emailTaken_append_of_eq s0 (mkStored r1 s0) r2.email hu1
      rcases hlos with ⟨hph2, hr2⟩ | ⟨hph2, hdone⟩
      · cases hp : s.p2.phase with
        | done => exact absurd hp hph2
        | start =>
          have hstep : step secret s false =
              ⟨s.store, s.p1,
               { s.p2 with phase := Phase.done
                           resp := some (errResp 400 "Email already registered") }⟩ := by
            simp [step, stepProc_start_taken secret s.store s.p2 hp (by rw [hq2]; exact hv2) htaken]
          rw [hstep]
          refine ⟨hq1, hq2, Or.inr (Or.inl ⟨hst, hph1, hr1, Or.inr ⟨by simp, ?_⟩⟩)⟩
          exact ⟨errResp 400 "Email already registered", by simp, Or.inl rfl⟩
        | checked =>
          have hstep : step secret s false =
              ⟨s.store, s.p1,
               { s.p2 with phase := Phase.done
                           resp := some (errResp 500 "E11000 duplicate key error") }⟩ := by
            simp [step, stepProc_checked_taken secret s.store s.p2 hp (by rw [hq2]; exact hv2) htaken]
          rw [hstep]
          refine ⟨hq1, hq2, Or.inr (Or.inl ⟨hst, hph1, hr1, Or.inr ⟨by simp, ?_⟩⟩)⟩
          exact ⟨errResp 500 "E11000 duplicate key error", by simp, Or.inr rfl⟩
      · have hstep : step secret s false = s := by
          simp [step, stepProc_done secret s.store s.p2 hph2]
        rw [hstep]
        exact ⟨hq1, hq2, Or.inr (Or.inl ⟨hst, hph1, hr1, Or.inr ⟨hph2, hdone⟩⟩)⟩
  · -- the second request has won
    cases which with
    | false =>
      have hstep : step secret s false = s := by
        simp [step, stepProc_done secret s.store s.p2 hph2]
      rw [hstep]
      exact ⟨hq1, hq2, Or.inr (Or.inr ⟨hst, hph2, hr2, hlos⟩)⟩
    | true =>
      have htaken : emailTaken s.store s.p1.req.email = true := by
        rw [hst, hq1]
        exact emailTaken_append_of_eq s0 (mkStored r2 s0) r1.email hu2
      rcases hlos with ⟨hph1, hr1⟩ | ⟨hph1, hdone⟩
      · cases hp : s.p1.phase with
        | done => exact absurd hp hph1
        | start =>
          have hstep : step secret s true =
              ⟨s.store,
               { s.p1 with phase := Phase.done
                           resp := some (errResp 400 "Email already registered") },
               s.p2⟩ := by
            simp [step, stepProc_start_taken secret s.store s.p1 hp (by rw [hq1]; exact hv1) htaken]
          rw [hstep]
          refine ⟨hq1, hq2, Or.inr (Or.inr ⟨hst, hph2, hr2, Or.inr ⟨by simp, ?_⟩⟩)⟩
          exact ⟨errResp 400 "Email already registered", by simp, Or.inl rfl⟩
        | checked =>
          have hstep : step secret s true =
              ⟨s.store,
               { s.p1 with phase := Phase.done
                           resp := some (errResp 500 "E11000 duplicate key error") },
               s.p2⟩ := by
            simp [step, stepProc_checked_taken secret s.store s.p1 hp (by rw [hq1]; exact hv1) htaken]
          rw [hstep]
          refine ⟨hq1, hq2, Or.inr (Or.inr ⟨hst, hph2, hr2, Or.inr ⟨by simp, ?_⟩⟩)⟩
          exact ⟨errResp 500 "E11000 duplicate key error", by simp, Or.inr rfl⟩
      · have hstep : step secret s true = s := by
          simp [step, stepProc_done secret s.store s.p1 hph1]
        rw [hstep]
        exact ⟨hq1, hq2, Or.inr (Or.inr ⟨hst, hph2, hr2, Or.inr ⟨hph1, hdone⟩⟩)⟩

/-- The race invariant holds after any schedule. -/
theorem Inv_run (secret : String) (s0 : List UserRecord) (r1 r2 : Req)
    (hv1 : validReq r1 = true) (hv2 : validReq r2 = true)
    (hkey : normalizeEmail r1.email = normalizeEmail r2.email)
    (hfree : emailTaken s0 r1.email = false)
    (sched : List Bool) (s : Sys) (hs : Inv secret s0 r1 r2 s) :
    Inv secret s0 r1 r2 (run secret sched s) := by
  induction sched generalizing s with
  | nil => exact hs
  | cons w ws ih =>
    exact ih (step secret s w) (Inv_step secret s0 r1 r2 hv1 hv2 hkey hfree s hs w)

/-- C2 (amended): for two valid signup requests whose emails agree up to
letter case, run under any interleaving of their duplicate-check and insert
steps, exactly one succeeds — the store gains exactly the winner's record,
so the existing record is never overwritten — and the other fails, with the
DuplicateEmailError response when its duplicate check saw the winner's
record, or with the store's duplicate-key failure surfaced as a 500 response
when both checks passed before either insert. -/
theorem concurrent_signup_single_success (secret : String) (s0 : List UserRecord)
    (r1 r2 : Req) (sched : List Bool) (s : Sys)
    (hrun : s = run secret sched ⟨s0, ⟨r1, Phase.start, none⟩, ⟨r2, Phase.start, none⟩⟩)
    (hv1 : validReq r1 = true) (hv2 : validReq r2 = true)
    (hkey : normalizeEmail r1.email = normalizeEmail r2.email)
    (hfree : emailTaken s0 r1.email = false)
    (hdone1 : s.p1.phase = Phase.done) (hdone2 : s.p2.phase = Phase.done) :
    (s.store = s0 ++ [mkStored r1 s0] ∧
     s.p1.resp = some (okSignup secret (mkStored r1 s0) 0) ∧
     ∃ r, s.p2.resp = some r ∧ loserResp r) ∨
    (s.store = s0 ++ [mkStored r2 s0] ∧
     s.p2.resp = some (okSignup secret (mkStored r2 s0) 0) ∧
     ∃ r, s.p1.resp = some r ∧ loserResp r) := by
  have hinit : Inv secret s0 r1 r2 ⟨s0, ⟨r1, Phase.start, none⟩, ⟨r2, Phase.start, none⟩⟩ :=
    ⟨rfl, rfl, Or.inl ⟨rfl, by simp, rfl, by simp, rfl⟩⟩
  have hinv : Inv secret s0 r1 r2 s := by
    rw [hrun]
    exact Inv_run secret s0 r1 r2 hv1 hv2 hkey hfree sched _ hinit
  obtain ⟨-, -, hcase⟩ := hinv
  rcases hcase with ⟨-, hph1, -, -, -⟩ | ⟨hst, -, hr, hlos⟩ | ⟨hst, -, hr, hlos⟩
  · exact absurd hdone1 hph1
  · rcases hlos with ⟨hph2, -⟩ | ⟨-, hl⟩
    · exact absurd hdone2 hph2
    · exact Or.inl ⟨hst, hr, hl⟩
  · rcases hlos with ⟨hph1, -⟩ | ⟨-, hl⟩
    · exact absurd hdone1 hph1
    · exact Or.inr ⟨hst, hr, hl⟩

/-- Counterexample for C2 as stated: under the interleaving check-check-
insert-insert, both duplicate checks see the email as free, the first insert
wins, and the second insert hits the unique index — the loser's response is
the 500 duplicate-key failure, not the DuplicateEmailError (400,
`Email already registered`) the claim promises for the failing request. -/
theorem concurrent_signup_counterexample :
    (run "k" [true, false, true, false]
      ⟨[], ⟨⟨"Jane Doe", "Jane@X.com", "secret1", "secret1", 2⟩, Phase.start, none⟩,
           ⟨⟨"John Roe", "jane@x.com", "hunter22", "hunter22", 3⟩, Phase.start, none⟩⟩).p1.resp =
      some (okSignup "k" (mkStored ⟨"Jane Doe", "Jane@X.com", "secret1", "secret1", 2⟩ []) 0) ∧
    (run "k" [true, false, true, false]
      ⟨[], ⟨⟨"Jane Doe", "Jane@X.com", "secret1", "secret1", 2⟩, Phase.start, none⟩,
           ⟨⟨"John Roe", "jane@x.com", "hunter22", "hunter22", 3⟩, Phase.start, none⟩⟩).p2.resp =
      some (errResp 500 "E11000 duplicate key error") ∧
    errResp 500 "E11000 duplicate key error" ≠ errResp 400 "Email already registered" := by
  refine ⟨by decide, by decide, by decide⟩

/-- Witness for C2 (amended) at the same concrete race. -/
theorem concurrent_signup_single_success_witness :
    ((run "k" [true, false, true, false]
        ⟨[], ⟨⟨"Jane Doe", "Jane@X.com", "secret1", "secret1", 2⟩, Phase.start, none⟩,
             ⟨⟨"John Roe", "jane@x.com", "hunter22", "hunter22", 3⟩, Phase.start, none⟩⟩).store =
        [] ++ [mkStored ⟨"Jane Doe", "Jane@X.com", "secret1", "secret1", 2⟩ []] ∧
      (run "k" [true, false, true, false]
        ⟨[], ⟨⟨"Jane Doe", "Jane@X.com", "secret1", "secret1", 2⟩, Phase.start, none⟩,
             ⟨⟨"John Roe", "jane@x.com", "hunter22", "hunter22", 3⟩, Phase.start, none⟩⟩).p1.resp =
        some (okSignup "k" (mkStored ⟨"Jane Doe", "Jane@X.com", "secret1", "secret1", 2⟩ []) 0) ∧
      ∃ r, (run "k" [true, false, true, false]
        ⟨[], ⟨⟨"Jane Doe", "Jane@X.com", "secret1", "secret1", 2⟩, Phase.start, none⟩,
             ⟨⟨"John Roe", "jane@x.com", "hunter22", "hunter22", 3⟩, Phase.start, none⟩⟩).p2.resp =
        some r ∧ loserResp r) ∨
    ((run "k" [true, false, true, false]
        ⟨[], ⟨⟨"Jane Doe", "Jane@X.com", "secret1", "secret1", 2⟩, Phase.start, none⟩,
             ⟨⟨"John Roe", "jane@x.com", "hunter22", "hunter22", 3⟩, Phase.start, none⟩⟩).store =
        [] ++ [mkStored ⟨"John Roe", "jane@x.com", "hunter22", "hunter22", 3⟩ []] ∧
      (run "k" [true, false, true, false]
        ⟨[], ⟨⟨"Jane Doe", "Jane@X.com", "secret1", "secret1", 2⟩, Phase.start, none⟩,
             ⟨⟨"John Roe", "jane@x.com", "hunter22", "hunter22", 3⟩, Phase.start, none⟩⟩).p2.resp =
        some (okSignup "k" (mkStored ⟨"John Roe", "jane@x.com", "hunter22", "hunter22", 3⟩ []) 0) ∧
      ∃ r, (run "k" [true, false, true, false]
        ⟨[], ⟨⟨"Jane Doe", "Jane@X.com", "secret1", "secret1", 2⟩, Phase.start, none⟩,
             ⟨⟨"John Roe", "jane@x.com", "hunter22", "hunter22", 3⟩, Phase.start, none⟩⟩).p1.resp =
        some r ∧ loserResp r) :=
  concurrent_signup_single_success "k" []
    ⟨"Jane Doe", "Jane@X.com", "secret1", "secret1", 2⟩
    ⟨"John Roe", "jane@x.com", "hunter22", "hunter22", 3⟩
    [true, false, true, false] _ rfl
    (by decide) (by decide) (by decide) (by decide) (by decide) (by decide)

end SignupRace

end TodoApp
